import Mathlib

/-!
Shallow embedding of `rotwriter.go` (package rotwriter): a size-triggered
rotating file writer.  Files are byte lists keyed by path; the file handle
records the open/append state and the write offset; an `Env` supplies the
outcome of the fallible OS calls (rename, open) and the current local time.
The `Write` function mirrors the Go method line by line, including the event
trace of the OS-level operations it performs (notably: the `mutex` field of
the struct is declared in the source but never locked or unlocked).
-/

namespace Rotwriter

/-- Bytes are modelled as natural numbers. -/
abbrev Byte := Nat

/-- The file system: a partial map from path to file content. -/
abbrev FS := String → Option (List Byte)

/-- Point update of the file system. -/
def fsSet (fs : FS) (k : String) (v : Option (List Byte)) : FS :=
  fun x => if x = k then v else fs x

/-- The empty file system. -/
def fsEmpty : FS := fun _ => none

/-- An `*os.File` handle: the name it was opened with (`Name()`), whether it
is still open, whether it was opened with `O_APPEND`, and the current write
offset (meaningful when not in append mode). -/
structure FileHandle where
  name : String
  isOpen : Bool
  append : Bool
  pos : Nat
  deriving Repr, DecidableEq

/-- The `rotateWriter` struct of rotwriter.go (lines 22-27): a mutex, the
file name, the current handle and the maximum size.  The mutex is modelled
as a Bool recording whether it is held. -/
structure rotateWriter where
  mutex : Bool
  filename : String
  file : FileHandle
  maxSize : Int
  deriving Repr, DecidableEq

/-- `DefaultSize` (rotwriter.go line 19): 10 MB. -/
def DefaultSize : Int := 10 * 1024 * 1024

/-- A local time instant, as used by `time.Now()`. -/
structure Timestamp where
  year : Nat
  month : Nat
  day : Nat
  hour : Nat
  minute : Nat
  second : Nat
  deriving Repr, DecidableEq

/-- Zero-pad a number to two digits. -/
def pad2 (n : Nat) : String :=
  if n < 10 then "0" ++ toString n else toString n

/-- Zero-pad a number to four digits. -/
def pad4 (n : Nat) : String :=
  if n < 10 then "000" ++ toString n
  else if n < 100 then "00" ++ toString n
  else if n < 1000 then "0" ++ toString n
  else toString n

/-- Go's `Format("20060102-150405")`: YYYYMMDD-HHMMSS. -/
def Timestamp.format (t : Timestamp) : String :=
  pad4 t.year ++ pad2 t.month ++ pad2 t.day ++ "-" ++
    pad2 t.hour ++ pad2 t.minute ++ pad2 t.second

/-- Helper for `filepathExt`: scan the reversed character list; stop at a
path separator with no extension, or return the suffix from the last dot. -/
def extRev : List Char → List Char → Option (List Char)
  | [], _ => none
  | c :: rest, acc =>
    if c = '/' then none
    else if c = '.' then some (c :: acc)
    else extRev rest (c :: acc)

/-- Go's `filepath.Ext`: the suffix beginning at the final dot in the final
element of the path; empty if there is no dot. -/
def filepathExt (path : String) : String :=
  match extRev path.data.reverse [] with
  | some cs => String.mk cs
  | none => ""

/-- Go's `strings.TrimSuffix`: remove `suffix` from the end of `s` when it
is present, otherwise return `s` unchanged. -/
def trimSuffix (s suffix : String) : String :=
  if suffix.data.isSuffixOf s.data then
    String.mk (s.data.take (s.data.length - suffix.data.length))
  else s

/-- The archive name computed in rotwriter.go lines 58-60:
`base + "-" + timestamp + ext`. -/
def archiveName (name : String) (now : Timestamp) : String :=
  let ext := filepathExt name
  let base := trimSuffix name ext
  base ++ "-" ++ now.format ++ ext

/-- Environment of a `Write` call: outcome of the fallible OS calls and the
current local time. -/
structure Env where
  renameOk : Bool
  openOk : Bool
  now : Timestamp
  deriving Repr, DecidableEq

/-- Errors a call can return. -/
inductive Err where
  | errClosed
  | renameFailed
  | openFailed
  deriving Repr, DecidableEq

/-- OS-level operations a `Write` call may perform, in order.  `lock` and
`unlock` are included so that (non-)use of the struct's mutex is visible in
the trace. -/
inductive Event where
  | lock
  | unlock
  | stat
  | close
  | rename
  | reopen
  | write
  deriving Repr, DecidableEq

/-- `file.Stat()` followed by `.Size()`: fails on a closed handle (Go
returns `ErrClosed`), otherwise reports the size of the file the descriptor
refers to. -/
def handleStat (fs : FS) (h : FileHandle) : Option Int :=
  if h.isOpen then (fs h.name).map (fun c => (c.length : Int)) else none

/-- Overwrite `content` starting at offset `pos` with `p`; a write of zero
bytes changes nothing, a write past end-of-file zero-fills the gap. -/
def writeAt (content : List Byte) (pos : Nat) (p : List Byte) : List Byte :=
  if p.length = 0 then content
  else content.take pos ++ List.replicate (pos - content.length) 0 ++ p ++
    content.drop (pos + p.length)

/-- `file.Write(p)`: fails with `ErrClosed` on a closed handle; in append
mode appends to the file; otherwise writes at the current offset and
advances it. -/
def handleWrite (fs : FS) (h : FileHandle) (p : List Byte) :
    FS × FileHandle × Nat × Option Err :=
  if h.isOpen then
    match fs h.name with
    | some content =>
      if h.append then
        (fsSet fs h.name (some (content ++ p)), h, p.length, none)
      else
        (fsSet fs h.name (some (writeAt content h.pos p)),
          { h with pos := h.pos + p.length }, p.length, none)
    | none => (fs, { h with pos := h.pos + p.length }, p.length, none)
  else
    (fs, h, 0, some Err.errClosed)

/-- `New` (rotwriter.go lines 34-51): normalize `maxSize`, open (creating if
absent, without truncation) the file in append mode, and build the struct.
Only the success path of the open is modelled; the claims concern successful
construction. -/
def New (fs : FS) (filename : String) (maxSize : Int) : FS × rotateWriter :=
  let maxSize := if maxSize ≤ 0 then DefaultSize else maxSize
  let fs := if (fs filename).isSome then fs else fsSet fs filename (some [])
  let file : FileHandle :=
    { name := filename, isOpen := true, append := true, pos := 0 }
  (fs, { mutex := false, filename := filename, file := file,
         maxSize := maxSize })

/-- The outcome of one `Write` call: the new file system and struct, the
returned byte count and error, whether the rotation branch was entered, and
the trace of OS operations performed. -/
structure WriteResult where
  fs : FS
  rw : rotateWriter
  n : Nat
  err : Option Err
  rotated : Bool
  events : List Event

/-- The final `return rw.file.Write(p)` of rotwriter.go line 73, tagging the
result with the rotation flag and the events performed so far. -/
def finishWrite (fs : FS) (rw : rotateWriter) (p : List Byte)
    (rotated : Bool) (evs : List Event) : WriteResult :=
  let r := handleWrite fs rw.file p
  { fs := r.1, rw := { rw with file := r.2.1 }, n := r.2.2.1,
    err := r.2.2.2, rotated := rotated, events := evs ++ [Event.write] }

/-- `Write` (rotwriter.go lines 53-74).  Stat the current handle; if that
succeeds and the size strictly exceeds `maxSize`, close the handle, rename
the file to its timestamped archive name (returning the error on failure),
reopen the original path with `O_CREATE|O_WRONLY` (no append; returning the
error on failure), then delegate to the underlying write.  The source never
locks `rw.mutex`; accordingly no `lock` event ever enters the trace. -/
def Write (env : Env) (fs : FS) (rw : rotateWriter) (p : List Byte) :
    WriteResult :=
  match handleStat fs rw.file with
  | some size =>
    if rw.maxSize < size then
      let file := { rw.file with isOpen := false }
      let name := archiveName file.name env.now
      if env.renameOk ∧ (fs file.name).isSome then
        let fs1 := fsSet (fsSet fs file.name none) name (fs file.name)
        if env.openOk then
          let fs2 := if (fs1 rw.filename).isSome then fs1
                     else fsSet fs1 rw.filename (some [])
          let newFile : FileHandle :=
            { name := rw.filename, isOpen := true, append := false,
              pos := 0 }
          finishWrite fs2 { rw with file := newFile } p true
            [Event.stat, Event.close, Event.rename, Event.reopen]
        else
          { fs := fs1, rw := { rw with file := file }, n := 0,
            err := some Err.openFailed, rotated := true,
            events := [Event.stat, Event.close, Event.rename,
                       Event.reopen] }
      else
        { fs := fs, rw := { rw with file := file }, n := 0,
          err := some Err.renameFailed, rotated := true,
          events := [Event.stat, Event.close, Event.rename] }
    else
      finishWrite fs rw p false [Event.stat]
  | none => finishWrite fs rw p false [Event.stat]

/-- Fold a sequence of `Write` calls; the Bool records whether any call in
the sequence entered the rotation branch. -/
def writeAll : Env → FS → rotateWriter → List (List Byte) →
    FS × rotateWriter × Bool
  | _, fs, rw, [] => (fs, rw, false)
  | env, fs, rw, p :: ps =>
    let r := Write env fs rw p
    let rest := writeAll env r.fs r.rw ps
    (rest.1, rest.2.1, r.rotated || rest.2.2)

/-- A healthy instance state: the handle is open, refers to the configured
file name, and that file exists. -/
abbrev GoodState (fs : FS) (rw : rotateWriter) : Prop :=
  rw.file.isOpen = true ∧ rw.file.name = rw.filename ∧
    (fs rw.filename).isSome = true

/-- Size of the instance's active file. -/
def fileSize (fs : FS) (rw : rotateWriter) : Nat :=
  ((fs rw.filename).getD []).length

/-- Total number of bytes in a sequence of buffers. -/
def totalLen (ps : List (List Byte)) : Nat :=
  (ps.map List.length).sum

/-- On an open handle aimed at an existing file, `Stat` reports the size. -/
lemma good_stat (fs : FS) (rw : rotateWriter) (c : List Byte)
    (hopen : rw.file.isOpen = true) (hname : rw.file.name = rw.filename)
    (hc : fs rw.filename = some c) :
    handleStat fs rw.file = some (c.length : Int) := by
  simp [handleStat, hopen, hname, hc]

/-- A `Write` whose stat reports a size within the threshold skips rotation
and appends to the active file (append-mode handle). -/
lemma write_no_rotate (env : Env) (fs : FS) (rw : rotateWriter)
    (p : List Byte) (c : List Byte)
    (hopen : rw.file.isOpen = true) (hname : rw.file.name = rw.filename)
    (hc : fs rw.filename = some c) (happ : rw.file.append = true)
    (hle : (c.length : Int) ≤ rw.maxSize) :
    Write env fs rw p =
      { fs := fsSet fs rw.filename (some (c ++ p)), rw := rw,
        n := p.length, err := none, rotated := false,
        events := [Event.stat, Event.write] } := by
  have hstat := good_stat fs rw c hopen hname hc
  simp only [Write, hstat]
  rw [if_neg (not_lt.mpr hle)]
  simp [finishWrite, handleWrite, hopen, hname, hc, happ]

/-- A `Write` on a closed handle fails the stat, skips rotation, fails the
underlying write with `ErrClosed`, and changes nothing. -/
lemma write_closed (env : Env) (fs : FS) (rw : rotateWriter) (p : List Byte)
    (hclosed : rw.file.isOpen = false) :
    Write env fs rw p =
      { fs := fs, rw := rw, n := 0, err := some Err.errClosed,
        rotated := false, events := [Event.stat, Event.write] } := by
  have hstat : handleStat fs rw.file = none := by simp [handleStat, hclosed]
  simp only [Write, hstat]
  simp [finishWrite, handleWrite, hclosed]

/-- While the cumulative size stays within the threshold, a sequence of
writes on a healthy append-mode instance never rotates. -/
lemma writeAll_no_rotation (env : Env) :
    ∀ (ps : List (List Byte)) (fs : FS) (rw : rotateWriter),
      GoodState fs rw → rw.file.append = true →
      (fileSize fs rw : Int) + totalLen ps ≤ rw.maxSize →
      (writeAll env fs rw ps).2.2 = false := by
  intro ps
  induction ps with
  | nil => intro fs rw _ _ _; simp [writeAll]
  | cons p ps ih =>
    intro fs rw hgood happ hle
    obtain ⟨hopen, hname, hsome⟩ := hgood
    obtain ⟨c, hc⟩ : ∃ c, fs rw.filename = some c := by
      cases h : fs rw.filename
      · rw [h] at hsome; simp at hsome
      · exact ⟨_, rfl⟩
    have hsize : fileSize fs rw = c.length := by simp [fileSize, hc]
    have htot : (totalLen (p :: ps) : Int) =
        (p.length : Int) + totalLen ps := by
      simp [totalLen]
    have hle1 : (c.length : Int) ≤ rw.maxSize := by
      rw [hsize, htot] at hle
      have h0 : (0 : Int) ≤ (p.length : Int) + totalLen ps := by positivity
      omega
    have hstep := write_no_rotate env fs rw p c hopen hname hc happ hle1
    have hrest : (writeAll env (fsSet fs rw.filename (some (c ++ p))) rw
        ps).2.2 = false := by
      refine ih _ rw ⟨hopen, hname, ?_⟩ happ ?_
      · simp [fsSet]
      · have hsize' : fileSize (fsSet fs rw.filename (some (c ++ p))) rw =
            c.length + p.length := by
          simp [fileSize, fsSet]
        have hle' := hle
        rw [hsize, htot] at hle'
        rw [hsize']
        push_cast
        omega
    simp [writeAll, hstep, hrest]

/-- C1: the source declares a mutex in the `rotateWriter` struct, but a
`Write` call never acquires it: no `lock` event ever appears in the trace of
a `Write` call, and the mutex state is untouched, on every path.  This
refutes the claim that the whole check-rotate-write sequence runs under the
instance's exclusive lock. -/
theorem c1_write_never_locks (env : Env) (fs : FS) (rw : rotateWriter)
    (p : List Byte) :
    Event.lock ∉ (Write env fs rw p).events ∧
    (Write env fs rw p).rw.mutex = rw.mutex := by
  unfold Write
  cases h : handleStat fs rw.file with
  | none => simp [finishWrite]
  | some size =>
    dsimp only
    by_cases hlt : rw.maxSize < size
    · rw [if_pos hlt]
      split_ifs <;> simp [finishWrite]
    · rw [if_neg hlt]
      simp [finishWrite]

/-- C2: a `Write` call rotates if and only if the size query succeeds and
reports a size strictly above `maxSize`; a failed size query makes the call
behave exactly as the direct underlying write (no rotation, no extra
error); and a sequence of writes whose cumulative size stays within
`maxSize` never rotates. -/
theorem c2_rotation_condition (env : Env) (fs : FS) (rw : rotateWriter)
    (p : List Byte) :
    ((Write env fs rw p).rotated = true ↔
      ∃ size, handleStat fs rw.file = some size ∧ rw.maxSize < size) ∧
    (handleStat fs rw.file = none →
      Write env fs rw p = finishWrite fs rw p false [Event.stat]) ∧
    (∀ ps, GoodState fs rw → rw.file.append = true →
      (fileSize fs rw : Int) + totalLen (p :: ps) ≤ rw.maxSize →
      (writeAll env fs rw (p :: ps)).2.2 = false) := by
  refine ⟨?_, ?_, ?_⟩
  · unfold Write
    cases h : handleStat fs rw.file with
    | none => simp [finishWrite]
    | some size =>
      dsimp only
      by_cases hlt : rw.maxSize < size
      · rw [if_pos hlt]
        split_ifs <;> simp [finishWrite, hlt]
      · rw [if_neg hlt]
        simp [finishWrite, hlt]
  · intro h
    unfold Write
    rw [h]
  · intro ps hgood happ hle
    exact writeAll_no_rotation env (p :: ps) fs rw hgood happ hle

/-- Witness for C2: on a fresh instance with threshold 10, writing one byte
and then another byte never rotates. -/
theorem c2_rotation_condition_witness :
    (writeAll ⟨true, true, ⟨2024, 3, 5, 9, 8, 7⟩⟩
      (New fsEmpty "x.log" 10).1 (New fsEmpty "x.log" 10).2
      [[97], [98]]).2.2 = false :=
  (c2_rotation_condition ⟨true, true, ⟨2024, 3, 5, 9, 8, 7⟩⟩
      (New fsEmpty "x.log" 10).1 (New fsEmpty "x.log" 10).2 [97]).2.2
    [[98]] (by decide) (by decide) (by decide)

/-- C3: the archive name is `base + "-" + timestamp + ext` where `ext` is
the last dot-segment of the file name (empty when there is none) and the
timestamp is formatted YYYYMMDD-HHMMSS; in particular
"a/b/log.txt" at 2024-03-05 09:08:07 yields
"a/b/log-20240305-090807.txt", and "a/b/log" yields
"a/b/log-20240305-090807" with no trailing dot. -/
theorem c3_archive_name :
    (∀ (name : String) (t : Timestamp),
      archiveName name t =
        trimSuffix name (filepathExt name) ++ "-" ++ t.format ++
          filepathExt name) ∧
    archiveName "a/b/log.txt" ⟨2024, 3, 5, 9, 8, 7⟩ =
      "a/b/log-20240305-090807.txt" ∧
    archiveName "a/b/log" ⟨2024, 3, 5, 9, 8, 7⟩ =
      "a/b/log-20240305-090807" ∧
    Timestamp.format ⟨2024, 3, 5, 9, 8, 7⟩ = "20240305-090807" := by
  refine ⟨fun name t => rfl, ?_, ?_, ?_⟩ <;> decide

/-- C7: a `Write` call on an instance whose handle is no longer open (the
Broken state left by a failed rename or reopen) fails its size query, skips
rotation, fails the underlying write with the closed-file error writing 0
bytes, and leaves the file system and the instance unchanged; hence every
subsequent call does the same and there is no automatic recovery. -/
theorem c7_broken_no_recovery (env : Env) (fs : FS) (rw : rotateWriter)
    (p : List Byte) (hclosed : rw.file.isOpen = false) :
    (Write env fs rw p).rotated = false ∧ (Write env fs rw p).n = 0 ∧
    (Write env fs rw p).err = some Err.errClosed ∧
    (Write env fs rw p).fs = fs ∧ (Write env fs rw p).rw = rw ∧
    (Write env fs rw p).events = [Event.stat, Event.write] ∧
    ∀ ps, writeAll env fs rw ps = (fs, rw, false) := by
  have hw := write_closed env fs rw p hclosed
  refine ⟨by rw [hw], by rw [hw], by rw [hw], by rw [hw], by rw [hw],
    by rw [hw], ?_⟩
  intro ps
  induction ps with
  | nil => simp [writeAll]
  | cons q ps ih => simp [writeAll, write_closed env fs rw q hclosed, ih]

/-- Witness for C7: a concrete broken instance fails its write with the
closed-file error. -/
theorem c7_broken_no_recovery_witness :
    (Write ⟨true, true, ⟨2024, 3, 5, 9, 8, 7⟩⟩ fsEmpty
      ⟨false, "x.log", ⟨"x.log", false, true, 0⟩, 10⟩ [97]).err =
      some Err.errClosed :=
  (c7_broken_no_recovery ⟨true, true, ⟨2024, 3, 5, 9, 8, 7⟩⟩ fsEmpty
    ⟨false, "x.log", ⟨"x.log", false, true, 0⟩, 10⟩ [97] rfl).2.2.1

/-- An over-size `Write` whose rename fails: the call aborts with the
rename error, nothing on disk changes, and the handle stays closed. -/
lemma write_rotate_rename_fail (env : Env) (fs : FS) (rw : rotateWriter)
    (p : List Byte) (c : List Byte)
    (hopen : rw.file.isOpen = true) (hname : rw.file.name = rw.filename)
    (hc : fs rw.filename = some c) (hlt : rw.maxSize < (c.length : Int))
    (hren : env.renameOk = false) :
    Write env fs rw p =
      { fs := fs,
        rw := { rw with file := { rw.file with isOpen := false } },
        n := 0, err := some Err.renameFailed, rotated := true,
        events := [Event.stat, Event.close, Event.rename] } := by
  have hstat := good_stat fs rw c hopen hname hc
  simp only [Write, hstat]
  rw [if_pos hlt]
  rw [if_neg (by simp [hren])]

/-- An over-size `Write` whose rename succeeds but whose reopen fails: the
call aborts with the open error, the old content now sits at the archive
name only, and the handle stays closed. -/
lemma write_rotate_reopen_fail (env : Env) (fs : FS) (rw : rotateWriter)
    (p : List Byte) (c : List Byte)
    (hopen : rw.file.isOpen = true) (hname : rw.file.name = rw.filename)
    (hc : fs rw.filename = some c) (hlt : rw.maxSize < (c.length : Int))
    (hren : env.renameOk = true) (hop : env.openOk = false) :
    Write env fs rw p =
      { fs := fsSet (fsSet fs rw.filename none)
          (archiveName rw.file.name env.now) (some c),
        rw := { rw with file := { rw.file with isOpen := false } },
        n := 0, err := some Err.openFailed, rotated := true,
        events := [Event.stat, Event.close, Event.rename,
                   Event.reopen] } := by
  have hstat := good_stat fs rw c hopen hname hc
  simp only [Write, hstat]
  rw [if_pos hlt]
  rw [if_pos ⟨hren, by rw [hname, hc]; rfl⟩]
  rw [if_neg (by simp [hop])]
  rw [hname, hc]

/-- An over-size `Write` whose rename and reopen both succeed: the old
content moves to the archive name, a fresh empty non-append file is opened
at the original path, and the buffer is written to it at offset 0. -/
lemma write_rotate_ok (env : Env) (fs : FS) (rw : rotateWriter)
    (p : List Byte) (c : List Byte)
    (hopen : rw.file.isOpen = true) (hname : rw.file.name = rw.filename)
    (hc : fs rw.filename = some c) (hlt : rw.maxSize < (c.length : Int))
    (hren : env.renameOk = true) (hop : env.openOk = true)
    (hne : rw.filename ≠ archiveName rw.file.name env.now) :
    Write env fs rw p =
      { fs := fsSet (fsSet (fsSet (fsSet fs rw.filename none)
            (archiveName rw.file.name env.now) (some c))
            rw.filename (some []))
          rw.filename (some (writeAt [] 0 p)),
        rw := { rw with
          file := { name := rw.filename, isOpen := true, append := false,
                    pos := p.length } },
        n := p.length, err := none, rotated := true,
        events := [Event.stat, Event.close, Event.rename, Event.reopen,
                   Event.write] } := by
  have hstat := good_stat fs rw c hopen hname hc
  simp only [Write, hstat]
  rw [if_pos hlt]
  rw [if_pos ⟨hren, by rw [hname, hc]; rfl⟩]
  rw [if_pos hop]
  have hne' : rw.filename ≠ archiveName rw.filename env.now := by
    simpa [hname] using hne
  have h1 : (fsSet (fsSet fs rw.file.name none)
      (archiveName rw.file.name env.now) (fs rw.file.name))
        rw.filename = none := by
    simp [fsSet, hname, hne']
  rw [if_neg (by rw [h1]; simp)]
  simp only [finishWrite, handleWrite, fsSet, hname, hc]
  simp [hne']

/-- C4 counterexample: on an instance over its threshold, a `Write` whose
rename succeeds but whose reopen fails returns an error, and afterwards the
file at `path` does NOT exist — its content was renamed to the archive and
no new file was created.  This refutes the claim that the file at `path`
exists after every completed `Write` call. -/
theorem c4_file_absent_after_failed_reopen :
    (Write ⟨true, false, ⟨2024, 3, 5, 9, 8, 7⟩⟩
      (New (fsSet fsEmpty "x.log" (some [97, 97])) "x.log" 1).1
      (New (fsSet fsEmpty "x.log" (some [97, 97])) "x.log" 1).2
      [98]).err = some Err.openFailed ∧
    (Write ⟨true, false, ⟨2024, 3, 5, 9, 8, 7⟩⟩
      (New (fsSet fsEmpty "x.log" (some [97, 97])) "x.log" 1).1
      (New (fsSet fsEmpty "x.log" (some [97, 97])) "x.log" 1).2
      [98]).fs "x.log" = none := by
  decide

/-- C4 (amended): the file at `path` exists after successful construction,
and after every completed `Write` call from a healthy state except one that
fails at the rotation reopen step (after a reopen failure the file has been
renamed away and `path` is left absent). -/
theorem c4_amended_file_exists (fs : FS) (f : String) (m : Int) (env : Env)
    (fs' : FS) (rw : rotateWriter) (p : List Byte)
    (hgood : GoodState fs' rw)
    (herr : (Write env fs' rw p).err ≠ some Err.openFailed) :
    ((New fs f m).1 f).isSome = true ∧
    ((Write env fs' rw p).fs rw.filename).isSome = true := by
  constructor
  · by_cases hf : (fs f).isSome = true
    · simp [New, hf]
    · simp [New, hf, fsSet]
  · obtain ⟨hopen, hname, hsome⟩ := hgood
    obtain ⟨c, hc⟩ : ∃ c, fs' rw.filename = some c := by
      cases h : fs' rw.filename
      · rw [h] at hsome; simp at hsome
      · exact ⟨_, rfl⟩
    have hstat := good_stat fs' rw c hopen hname hc
    simp only [Write, hstat] at herr ⊢
    split_ifs at herr ⊢ with h1 h2 h3 h4
    · obtain ⟨d, hd⟩ : ∃ d, (fsSet (fsSet fs' rw.file.name none)
          (archiveName rw.file.name env.now) (fs' rw.file.name))
            rw.filename = some d := by
        cases h : (fsSet (fsSet fs' rw.file.name none)
            (archiveName rw.file.name env.now) (fs' rw.file.name))
              rw.filename
        · rw [h] at h4; simp at h4
        · exact ⟨_, rfl⟩
      simp [finishWrite, handleWrite, hd]
      simp [fsSet]
    · simp [finishWrite, handleWrite, fsSet]
    · simp at herr
    · simp [hc]
    · cases happ : rw.file.append <;>
        simp [finishWrite, handleWrite, hopen, hname, hc, happ, fsSet]

/-- Witness for the amended C4: the file exists after a fresh construction
and after a successful one-byte write on it. -/
theorem c4_amended_file_exists_witness :
    ((New fsEmpty "x.log" 5).1 "x.log").isSome = true ∧
    ((Write ⟨true, true, ⟨2024, 3, 5, 9, 8, 7⟩⟩ (New fsEmpty "x.log" 5).1
      (New fsEmpty "x.log" 5).2 [97]).fs "x.log").isSome = true :=
  ⟨(c4_amended_file_exists fsEmpty "x.log" 5
      ⟨true, true, ⟨2024, 3, 5, 9, 8, 7⟩⟩ (New fsEmpty "x.log" 5).1
      (New fsEmpty "x.log" 5).2 [97] (by decide) (by decide)).1,
   (c4_amended_file_exists fsEmpty "x.log" 5
      ⟨true, true, ⟨2024, 3, 5, 9, 8, 7⟩⟩ (New fsEmpty "x.log" 5).1
      (New fsEmpty "x.log" 5).2 [97] (by decide) (by decide)).2⟩

/-- C5: when the rename step of a rotation fails, `Write` returns the
rename error with 0 bytes written, the file system is completely unchanged
(the pre-rotation file is untouched at its original name with its content
intact), and the instance is left with a closed handle. -/
theorem c5_rename_failure_aborts (env : Env) (fs : FS) (rw : rotateWriter)
    (p : List Byte) (c : List Byte)
    (hgood : GoodState fs rw) (hc : fs rw.filename = some c)
    (hover : rw.maxSize < (c.length : Int))
    (hren : env.renameOk = false) :
    (Write env fs rw p).n = 0 ∧
    (Write env fs rw p).err = some Err.renameFailed ∧
    (Write env fs rw p).fs = fs ∧
    (Write env fs rw p).fs rw.filename = some c ∧
    (Write env fs rw p).rw.file.isOpen = false ∧
    (Write env fs rw p).rw.file.name = rw.file.name := by
  obtain ⟨hopen, hname, _⟩ := hgood
  have hw := write_rotate_rename_fail env fs rw p c hopen hname hc hover hren
  rw [hw]
  exact ⟨rfl, rfl, rfl, hc, rfl, rfl⟩

/-- Witness for C5: on a 2-byte file with threshold 1 and a failing rename,
the write returns the rename error and the file keeps its content. -/
theorem c5_rename_failure_aborts_witness :
    (Write ⟨false, true, ⟨2024, 3, 5, 9, 8, 7⟩⟩
      (New (fsSet fsEmpty "x.log" (some [97, 97])) "x.log" 1).1
      (New (fsSet fsEmpty "x.log" (some [97, 97])) "x.log" 1).2
      [98]).err = some Err.renameFailed ∧
    (Write ⟨false, true, ⟨2024, 3, 5, 9, 8, 7⟩⟩
      (New (fsSet fsEmpty "x.log" (some [97, 97])) "x.log" 1).1
      (New (fsSet fsEmpty "x.log" (some [97, 97])) "x.log" 1).2
      [98]).fs "x.log" = some [97, 97] :=
  ⟨(c5_rename_failure_aborts _ _ _ _ [97, 97] (by decide) (by decide)
      (by decide) rfl).2.1,
   (c5_rename_failure_aborts _ _ _ _ [97, 97] (by decide) (by decide)
      (by decide) rfl).2.2.2.1⟩

/-- C6: construction opens the file in create-if-absent append mode, while
the rotation reopen step opens the original path in create-if-absent write
mode without append; and if the reopen fails, `Write` returns that error
with 0 bytes written and a closed handle, even though the archive rename
has already happened (the old content sits at the archive name and the
original path is gone). -/
theorem c6_reopen_without_append (fs2 : FS) (f2 : String) (m2 : Int)
    (env : Env) (fs : FS) (rw : rotateWriter) (p : List Byte)
    (c : List Byte) (hgood : GoodState fs rw)
    (hc : fs rw.filename = some c)
    (hover : rw.maxSize < (c.length : Int))
    (hren : env.renameOk = true) :
    ((New fs2 f2 m2).2.file.append = true ∧
      (New fs2 f2 m2).2.file.isOpen = true) ∧
    (env.openOk = true → rw.filename ≠ archiveName rw.file.name env.now →
      (Write env fs rw p).rw.file.append = false ∧
      (Write env fs rw p).rw.file.isOpen = true ∧
      (Write env fs rw p).rw.file.name = rw.filename) ∧
    (env.openOk = false →
      (Write env fs rw p).n = 0 ∧
      (Write env fs rw p).err = some Err.openFailed ∧
      (Write env fs rw p).rw.file.isOpen = false ∧
      (Write env fs rw p).fs (archiveName rw.file.name env.now) = some c ∧
      (rw.filename ≠ archiveName rw.file.name env.now →
        (Write env fs rw p).fs rw.filename = none)) := by
  obtain ⟨hopen, hname, _⟩ := hgood
  refine ⟨⟨rfl, rfl⟩, ?_, ?_⟩
  · intro hop hne
    have hw := write_rotate_ok env fs rw p c hopen hname hc hover hren
      hop hne
    rw [hw]
    exact ⟨rfl, rfl, rfl⟩
  · intro hop
    have hw := write_rotate_reopen_fail env fs rw p c hopen hname hc hover
      hren hop
    rw [hw]
    refine ⟨rfl, rfl, rfl, by simp [fsSet], ?_⟩
    intro hne
    simp [fsSet, hne]

/-- Witness for C6: with threshold 1, a 2-byte file and a failing reopen,
the write returns the open error while the archive holds the old bytes and
the original path is absent. -/
theorem c6_reopen_without_append_witness :
    (Write ⟨true, false, ⟨2024, 3, 5, 9, 8, 7⟩⟩
      (New (fsSet fsEmpty "x.log" (some [97, 97])) "x.log" 1).1
      (New (fsSet fsEmpty "x.log" (some [97, 97])) "x.log" 1).2
      [98]).err = some Err.openFailed ∧
    (Write ⟨true, false, ⟨2024, 3, 5, 9, 8, 7⟩⟩
      (New (fsSet fsEmpty "x.log" (some [97, 97])) "x.log" 1).1
      (New (fsSet fsEmpty "x.log" (some [97, 97])) "x.log" 1).2
      [98]).fs "x-20240305-090807.log" = some [97, 97] :=
  ⟨((c6_reopen_without_append fsEmpty "y.log" 3 _ _ _ [98] [97, 97]
      (by decide) (by decide) (by decide) rfl).2.2 rfl).2.1,
   ((c6_reopen_without_append fsEmpty "y.log" 3 _ _ _ [98] [97, 97]
      (by decide) (by decide) (by decide) rfl).2.2 rfl).2.2.2.1⟩

/-- C8: a non-positive `maxSize` at construction produces an instance
identical to one constructed with 10 × 1024 × 1024; a positive `maxSize` is
used unchanged; and no `Write` call ever changes `maxSize` (or the file
name) of the instance. -/
theorem c8_default_max_size (fs : FS) (f : String) (m : Int) :
    (m ≤ 0 → New fs f m = New fs f (10 * 1024 * 1024)) ∧
    (0 < m → (New fs f m).2.maxSize = m) ∧
    (∀ env fs' rw p, (Write env fs' rw p).rw.maxSize = rw.maxSize ∧
      (Write env fs' rw p).rw.filename = rw.filename) := by
  refine ⟨?_, ?_, ?_⟩
  · intro h
    simp [New, DefaultSize, if_pos h]
  · intro h
    simp [New, if_neg (not_le.mpr h)]
  · intro env fs' rw p
    unfold Write
    cases h : handleStat fs' rw.file with
    | none => simp [finishWrite]
    | some size =>
      dsimp only
      split_ifs <;> simp [finishWrite]

/-- Witness for C8: constructing with -5 equals constructing with the
default, and constructing with 7 keeps 7. -/
theorem c8_default_max_size_witness :
    New fsEmpty "x.log" (-5) = New fsEmpty "x.log" (10 * 1024 * 1024) ∧
    (New fsEmpty "x.log" 7).2.maxSize = 7 :=
  ⟨(c8_default_max_size fsEmpty "x.log" (-5)).1 (by norm_num),
   (c8_default_max_size fsEmpty "x.log" 7).2.1 (by norm_num)⟩

/-- C9: with threshold 100 on an initially empty file, a first write of 101
bytes of 'a' succeeds without rotation; the next write of one 'b' sees size
101 > 100, rotates the 101 'a' bytes into the timestamped archive, and
writes 'b' into a fresh file at the original path. -/
theorem c9_two_write_scenario :
    let env : Env := ⟨true, true, ⟨2024, 3, 5, 9, 8, 7⟩⟩
    let st := New fsEmpty "/tmp/x.log" 100
    let r1 := Write env st.1 st.2 (List.replicate 101 97)
    let r2 := Write env r1.fs r1.rw [98]
    r1.rotated = false ∧ r1.n = 101 ∧ r1.err = none ∧
    r1.fs "/tmp/x.log" = some (List.replicate 101 97) ∧
    r2.rotated = true ∧ r2.n = 1 ∧ r2.err = none ∧
    r2.fs "/tmp/x-20240305-090807.log" = some (List.replicate 101 97) ∧
    r2.fs "/tmp/x.log" = some [98] := by
  decide

/-- C10: a `Write` of an empty buffer on a healthy instance still performs
the size check first: it rotates exactly when the current size strictly
exceeds `maxSize`, returns (0, no error), and leaves the active file's
content unchanged (the fresh post-rotation file stays empty; without
rotation the content is untouched). -/
theorem c10_empty_buffer_write (env : Env) (fs : FS) (rw : rotateWriter)
    (c : List Byte) (hgood : GoodState fs rw)
    (hc : fs rw.filename = some c)
    (hren : env.renameOk = true) (hop : env.openOk = true)
    (hne : rw.filename ≠ archiveName rw.file.name env.now) :
    (Write env fs rw []).n = 0 ∧
    (Write env fs rw []).err = none ∧
    ((Write env fs rw []).rotated = true ↔
      rw.maxSize < (c.length : Int)) ∧
    (rw.maxSize < (c.length : Int) →
      (Write env fs rw []).fs rw.filename = some [] ∧
      (Write env fs rw []).fs (archiveName rw.file.name env.now) =
        some c) ∧
    (¬ rw.maxSize < (c.length : Int) →
      (Write env fs rw []).fs rw.filename = some c) := by
  obtain ⟨hopen, hname, _⟩ := hgood
  by_cases hlt : rw.maxSize < (c.length : Int)
  · have hw := write_rotate_ok env fs rw [] c hopen hname hc hlt hren hop
      hne
    rw [hw]
    refine ⟨rfl, rfl, by simp [hlt], ?_, fun h => absurd hlt h⟩
    intro _
    constructor
    · simp [fsSet, writeAt]
    · simp [fsSet, Ne.symm hne]
  · have hstat := good_stat fs rw c hopen hname hc
    simp only [Write, hstat]
    rw [if_neg hlt]
    cases happ : rw.file.append <;>
      simp [finishWrite, handleWrite, hopen, hname, hc, happ, fsSet,
        writeAt, hlt]

/-- Witness for C10: an empty write on a 2-byte file with threshold 1
rotates and leaves the fresh active file empty. -/
theorem c10_empty_buffer_write_witness :
    (Write ⟨true, true, ⟨2024, 3, 5, 9, 8, 7⟩⟩
      (New (fsSet fsEmpty "x.log" (some [97, 97])) "x.log" 1).1
      (New (fsSet fsEmpty "x.log" (some [97, 97])) "x.log" 1).2
      []).fs "x.log" = some [] :=
  ((c10_empty_buffer_write _ _ _ [97, 97] (by decide) (by decide) rfl rfl
      (by decide)).2.2.2.1 (by decide)).1

end Rotwriter
